import Mathlib

/-!
# OntoWeb-PT zsh-plugin: the PTY session collector

A shallow embedding of `zsh-plugin/c/src/collector.c`, `zsh-plugin/c/lib/utils.c` and
`zsh-plugin/lib/utils.c`.  Every system call the program issues is recorded, in program
order, as an `Effect`; every value the operating system hands back to the program
(readiness events, read results, credentials, environment, ...) is an explicit input.
-/

set_option autoImplicit false
set_option maxRecDepth 20000

namespace Collector

/-- A C string, represented by the bytes that precede its terminating NUL. -/
abbrev CString := List Char

/-! ## Constants of the platform headers (Linux, glibc) -/

def STDIN_FILENO : Int := 0
def STDOUT_FILENO : Int := 1
def EPOLLIN : Nat := 0x001
def EPOLLERR : Nat := 0x008
def EPOLLHUP : Nat := 0x010
def EINTR : Int := 4
def TCSANOW : Nat := 0

/-- The `MAX_EVENTS` constant of collector.c. -/
def MAX_EVENTS : Nat := 4

/-- The size of `char buf[4096]` in `main`. -/
def BUF_SIZE : Nat := 4096

/-! ## Terminal attributes -/

/-- The fields of `struct termios` that `cfmakeraw` touches. -/
structure termios where
  c_iflag : Nat
  c_oflag : Nat
  c_cflag : Nat
  c_lflag : Nat
  c_cc : List Nat
deriving DecidableEq, Repr

/-- The fields of `struct winsize`. -/
structure winsize where
  ws_row : Nat
  ws_col : Nat
  ws_xpixel : Nat
  ws_ypixel : Nat
deriving DecidableEq, Repr

/-- Clear the bits of `mask` in `x` (the C idiom `x &= ~mask`). -/
def clearBits (x mask : Nat) : Nat := x - (x &&& mask)

/-- The glibc `cfmakeraw`, as documented in termios(3):
IGNBRK|BRKINT|PARMRK|ISTRIP|INLCR|IGNCR|ICRNL|IXON are cleared in `c_iflag`, OPOST in
`c_oflag`, ECHO|ECHONL|ICANON|ISIG|IEXTEN in `c_lflag`, CSIZE|PARENB in `c_cflag`, CS8 is
set, `c_cc[VMIN] = 1` and `c_cc[VTIME] = 0`. -/
def cfmakeraw (t : termios) : termios :=
  { c_iflag := clearBits t.c_iflag (0o1 ||| 0o2 ||| 0o10 ||| 0o40 ||| 0o100 ||| 0o200 ||| 0o400 ||| 0o2000)
    c_oflag := clearBits t.c_oflag 0o1
    c_lflag := clearBits t.c_lflag (0o10 ||| 0o100 ||| 0o2 ||| 0o1 ||| 0o100000)
    c_cflag := clearBits t.c_cflag (0o60 ||| 0o400) ||| 0o60
    c_cc := (t.c_cc.set 6 1).set 5 0 }

/-! ## Effects: the system and library calls issued by the program -/

/-- An argument of a `printf`-family call. -/
inductive PrintfArg where
  | str (s : CString)
  | int (i : Int)
deriving DecidableEq, Repr

/-- One call issued by the program, with the arguments it was given. -/
inductive Effect where
  | printf (fmt : String) (args : List PrintfArg)
  | fprintf_stderr (fmt : String)
  | perror (msg : String)
  | unshare_newnet
  | setgroups (size : Nat)
  | setgid (gid : Nat)
  | setuid (uid : Nat)
  | setenv (name : String) (value : String) (overwrite : Int)
  | mkdir (path : CString) (mode : Nat)
  | fopen (path : CString) (mode : String)
  | forkpty
  | execl (path : CString) (arg0 : CString) (arg1 : String)
  | ioctl_TIOCSWINSZ (fd : Int) (ws : winsize)
  | signal_SIGWINCH
  | tcsetattr (fd : Int) (actions : Nat) (t : termios)
  | epoll_create1 (flags : Nat)
  | epoll_ctl_add (fd : Int) (events : Nat)
  | epoll_wait (n_events : Int)
  | read (fd : Int) (n : Int) (data : List Char)
  | write (fd : Int) (bytes : List Char)
  | fwrite (bytes : List Char)
  | fflush
  | close_ep
  | waitpid (pid : Int)
deriving DecidableEq, Repr

/-! ## The readiness facility and `read` -/

/-- One `struct epoll_event` as filled in by the kernel. -/
structure epoll_event where
  events : Nat
  fd : Int
deriving DecidableEq, Repr

/-- What the kernel has for a `read` on a descriptor: the pending bytes (none at end of
file), or a failure with its errno. -/
inductive ReadResult where
  | data (bytes : List Char)
  | error (errno : Int)
deriving DecidableEq, Repr

/-- A reported readiness event together with what a `read` on its descriptor would find
at the moment the event is handled. -/
structure Ready where
  ev : epoll_event
  pending : ReadResult
deriving DecidableEq, Repr

/-- The result of one `epoll_wait` call: the ready events, or a failure with its errno. -/
inductive WaitResult where
  | ready (evs : List Ready)
  | failed (errno : Int)
deriving DecidableEq, Repr

/-- The call `read(fd, buf, count)`: the byte count returned and the bytes stored at the
start of `buf`.  At most `count` bytes are transferred; a failure returns -1. -/
def sys_read (r : ReadResult) (count : Nat) : Int × List Char :=
  match r with
  | .data bytes => (((bytes.take count).length : Nat), bytes.take count)
  | .error _ => (-1, [])

/-- The call `epoll_wait(ep, events, maxevents, -1)`: the value returned and the filled
part of the `events` array.  At most `maxevents` events are reported. -/
def sys_epoll_wait (w : WaitResult) (maxevents : Nat) : Int × List Ready :=
  match w with
  | .ready evs => (((evs.take maxevents).length : Nat), evs.take maxevents)
  | .failed _ => (-1, [])

/-- The value of `errno` after an `epoll_wait` call that returned a negative value. -/
def errno_of (w : WaitResult) : Int :=
  match w with
  | .ready _ => 0
  | .failed e => e

/-! ## The I/O loop of `main` (collector.c, lines 341-389) -/

/-- The `for (int i = 0; i < n_events; i++)` loop body over the reported events.
Returns the value of `running` after the batch and the calls issued. -/
def for_events (master_fd : Int) : List Ready → Bool × List Effect
  | [] => (true, [])
  | r :: rest =>
    if r.ev.events &&& (EPOLLHUP ||| EPOLLERR) ≠ 0 then
      (false, [])
    else if r.ev.fd = STDIN_FILENO ∧ r.ev.events &&& EPOLLIN ≠ 0 then
      let n := (sys_read r.pending BUF_SIZE).1
      let buf := (sys_read r.pending BUF_SIZE).2
      if n ≤ 0 then
        (false, [Effect.read STDIN_FILENO n buf])
      else
        ((for_events master_fd rest).1,
          Effect.read STDIN_FILENO n buf :: Effect.write master_fd (buf.take n.toNat)
            :: (for_events master_fd rest).2)
    else if r.ev.fd = master_fd ∧ r.ev.events &&& EPOLLIN ≠ 0 then
      let n := (sys_read r.pending BUF_SIZE).1
      let buf := (sys_read r.pending BUF_SIZE).2
      if n ≤ 0 then
        (false, [Effect.read master_fd n buf])
      else
        ((for_events master_fd rest).1,
          Effect.read master_fd n buf :: Effect.write STDOUT_FILENO (buf.take n.toNat)
            :: Effect.fwrite (buf.take n.toNat) :: Effect.fflush
            :: (for_events master_fd rest).2)
    else
      for_events master_fd rest

/-- The `while (running)` loop, run against the successive results of `epoll_wait`.
Returns the value of `running` when the trace is used up (`true`: the process is still
blocked in `epoll_wait`; `false`: the loop was left) and the calls issued. -/
def event_loop (master_fd : Int) : List WaitResult → Bool × List Effect
  | [] => (true, [])
  | w :: ws =>
    let n_events := (sys_epoll_wait w MAX_EVENTS).1
    let events := (sys_epoll_wait w MAX_EVENTS).2
    if n_events < 0 then
      if errno_of w = EINTR then
        ((event_loop master_fd ws).1, Effect.epoll_wait n_events :: (event_loop master_fd ws).2)
      else
        (false, [Effect.epoll_wait n_events, Effect.perror "[ERROR] epoll_wait failed"])
    else if (for_events master_fd events).1 then
      ((event_loop master_fd ws).1,
        Effect.epoll_wait n_events :: ((for_events master_fd events).2 ++ (event_loop master_fd ws).2))
    else
      (false, Effect.epoll_wait n_events :: (for_events master_fd events).2)

/-! ## Observations on a sequence of calls -/

/-- The bytes handed to `write` on descriptor `fd`, in order. -/
def writesTo (fd : Int) : List Effect → List Char
  | [] => []
  | Effect.write fd1 bytes :: es => if fd1 = fd then bytes ++ writesTo fd es else writesTo fd es
  | _ :: es => writesTo fd es

/-- The bytes appended to the log file with `fwrite`, in order. -/
def logAppends : List Effect → List Char
  | [] => []
  | Effect.fwrite bytes :: es => bytes ++ logAppends es
  | _ :: es => logAppends es

/-- The chunks returned by the successful (`n > 0`) reads on descriptor `fd`, concatenated
in order. -/
def readsFrom (fd : Int) : List Effect → List Char
  | [] => []
  | Effect.read fd1 n data :: es =>
    if fd1 = fd ∧ 0 < n then data ++ readsFrom fd es else readsFrom fd es
  | _ :: es => readsFrom fd es

/-- Every `fwrite` is immediately followed by `fflush`. -/
def flushedAfterEachAppend : List Effect → Bool
  | [] => true
  | Effect.fwrite _ :: Effect.fflush :: es => flushedAfterEachAppend es
  | Effect.fwrite _ :: _ => false
  | _ :: es => flushedAfterEachAppend es

/-- The number of `read` and `write`/`fwrite` calls in a sequence of calls. -/
def transferCount : List Effect → Nat
  | [] => 0
  | Effect.read _ _ _ :: es => transferCount es + 1
  | Effect.write _ _ :: es => transferCount es + 1
  | Effect.fwrite _ :: es => transferCount es + 1
  | _ :: es => transferCount es

/-! ## C library routines used by the program -/

/-- The call `snprintf(out, size, fmt, ...)` for `size > 0`: of the formatted text, the
first `size - 1` bytes are stored (followed by the terminating NUL). -/
def snprintf (size : Nat) (formatted : CString) : CString := formatted.take (size - 1)

/-- The call `readlink(path, buf, bufsiz)`: `target` is what the link points to, `none`
when the link cannot be read.  Returns the byte count (or -1) and the bytes stored. -/
def sys_readlink (target : Option (List Char)) (bufsiz : Nat) : Int × List Char :=
  match target with
  | none => (-1, [])
  | some t => (((t.take bufsiz).length : Nat), t.take bufsiz)

/-- The C `isspace` in the "C" locale. -/
def isspace (c : Char) : Bool :=
  c = ' ' || c = '\t' || c = '\n' || c = Char.ofNat 11 || c = Char.ofNat 12 || c = '\r'

def LLONG_MAX : Int := 9223372036854775807
def LLONG_MIN : Int := -9223372036854775808
def ERANGE : Int := 34

/-- The decimal value of a run of digits. -/
def digitsValue (ds : List Char) : Nat :=
  ds.foldl (fun acc c => 10 * acc + (c.toNat - 48)) 0

/-- The call `strtoll(s, NULL, 10)` made with `errno = 0`: the value returned and the
value of `errno` afterwards.  Leading white space is skipped, an optional sign is read,
then the longest run of decimal digits; a value out of range is clamped with ERANGE. -/
def strtoll (s : CString) : Int × Int :=
  let s1 := s.dropWhile isspace
  let neg := s1.head? = some '-'
  let s2 := if s1.head? = some '-' ∨ s1.head? = some '+' then s1.tail else s1
  let mag : Int := (digitsValue (s2.takeWhile Char.isDigit) : Nat)
  let v : Int := if neg then -mag else mag
  if v > LLONG_MAX then (LLONG_MAX, ERANGE)
  else if v < LLONG_MIN then (LLONG_MIN, ERANGE)
  else (v, 0)

/-- The conversion `(uid_t)x` / `(gid_t)x` of a `long long` to a 32-bit unsigned id. -/
def to_id (x : Int) : Nat := (x % 4294967296).toNat

/-- The call `fgets(buf, size, f)` on a freshly opened file with the given contents:
`none` at end of file, otherwise the first line, its newline included, cut to
`size - 1` bytes. -/
def fgets (size : Nat) (content : List Char) : Option (List Char) :=
  if content = [] then none
  else
    let line := content.takeWhile (fun c => c != '\n')
    let withNl := if line.length < content.length then line ++ ['\n'] else line
    some (withNl.take (size - 1))

/-! ## Shell resolution (utils.c) -/

/-- What the shell resolver reads from the operating system. -/
structure ShellSource where
  /-- The target of `/proc/<ppid>/exe`, `none` when `readlink` fails. -/
  parent_exe : Option CString
  /-- The value of `getenv("SHELL")`. -/
  env_SHELL : Option CString
deriving DecidableEq, Repr

/-- The fixed default shell path. -/
def DEFAULT_SHELL : CString := "/bin/sh".toList

namespace CLib

/-- The function `get_parent_shell_path(out, out_size)` of `zsh-plugin/c/lib/utils.c`.
Returns the status and the string left in `out` (`none`: `out` untouched). -/
def get_parent_shell_path (os : ShellSource) (out_nonnull : Bool) (out_size : Nat) :
    Int × Option CString :=
  if !out_nonnull || out_size == 0 then
    (-1, none)
  else
    let len := (sys_readlink os.parent_exe (512 - 1)).1
    let buf := (sys_readlink os.parent_exe (512 - 1)).2
    if len > 0 then
      (0, some (snprintf out_size (buf.take len.toNat)))
    else
      match os.env_SHELL with
      | some env_shell =>
        if env_shell ≠ [] then (0, some (snprintf out_size env_shell))
        else (0, some (snprintf out_size DEFAULT_SHELL))
      | none => (0, some (snprintf out_size DEFAULT_SHELL))

end CLib

namespace Lib

/-- The function `get_parent_shell_path()` of `zsh-plugin/lib/utils.c`, returning the
string it duplicates on the heap (`strdup` is taken to succeed). -/
def get_parent_shell_path (os : ShellSource) : CString :=
  let len := (sys_readlink os.parent_exe (512 - 1)).1
  let buf := (sys_readlink os.parent_exe (512 - 1)).2
  if len ≠ -1 then
    buf.take len.toNat
  else
    match os.env_SHELL with
    | some env_shell => if env_shell ≠ [] then env_shell else DEFAULT_SHELL
    | none => DEFAULT_SHELL

end Lib

/-- The credentials of the process as the kernel keeps them. -/
structure Creds where
  ruid : Nat
  euid : Nat
  suid : Nat
  rgid : Nat
  egid : Nat
  sgid : Nat
  groups : List Nat
deriving DecidableEq, Repr

/-- What the privilege normalizer reads from the operating system. -/
structure ProcessView where
  creds : Creds
  /-- The value of `getpid()`. -/
  pid : Int
  /-- The PPid field that `read_ppid` extracts from `/proc/<pid>/status`, -1 when the
  file cannot be opened or holds no such field. -/
  status_ppid : Int → Int
  /-- The contents of `/proc/<pid>/comm`, `none` when it cannot be opened. -/
  comm_file : Int → Option (List Char)
  /-- The indeterminate initial contents of the local array `name[64]`. -/
  name_uninit : CString
  /-- The value of `secure_getenv(name)`. -/
  secure_getenv : String → Option CString
  /-- Whether the kernel refuses `setgroups` for a reason other than missing privilege. -/
  setgroups_refused : Bool
  /-- Whether the kernel refuses `setgid` for a reason other than missing privilege. -/
  setgid_refused : Bool
  /-- Whether the kernel refuses `setuid` for a reason other than missing privilege. -/
  setuid_refused : Bool

/-- The kernel's `setgroups(0, NULL)`: needs privilege; clears the supplementary groups. -/
def sys_setgroups0 (c : Creds) (refused : Bool) : Int × Creds :=
  if refused ∨ c.euid ≠ 0 then (-1, c) else (0, { c with groups := [] })

/-- The kernel's `setgid(gid)`: a privileged caller sets the real, effective and saved
group id; an unprivileged caller may only set the effective id to the real or saved one. -/
def sys_setgid (c : Creds) (gid : Nat) (refused : Bool) : Int × Creds :=
  if refused then (-1, c)
  else if c.euid = 0 then (0, { c with rgid := gid, egid := gid, sgid := gid })
  else if gid = c.rgid ∨ gid = c.sgid then (0, { c with egid := gid })
  else (-1, c)

/-- The kernel's `setuid(uid)`: a privileged caller sets the real, effective and saved
user id; an unprivileged caller may only set the effective id to the real or saved one. -/
def sys_setuid (c : Creds) (uid : Nat) (refused : Bool) : Int × Creds :=
  if refused then (-1, c)
  else if c.euid = 0 then (0, { c with ruid := uid, euid := uid, suid := uid })
  else if uid = c.ruid ∨ uid = c.suid then (0, { c with euid := uid })
  else (-1, c)

/-- The function `read_comm(pid, buf, size)`: the status returned and the contents of
`buf` afterwards. -/
def read_comm (file : Option (List Char)) (buf : CString) (size : Nat) : Int × CString :=
  match file with
  | none => (-1, buf)
  | some content =>
    match fgets size content with
    | none => (0, buf.takeWhile (fun c => c != '\n'))
    | some line => (0, line.takeWhile (fun c => c != '\n'))

/-- The function `read_ppid(pid)`; the scan of the status file is represented by its
result. -/
def read_ppid (os : ProcessView) (pid : Int) : Int := os.status_ppid pid

/-- The result of `drop_root_privileges`: the value returned, the calls issued and the
credentials of the process afterwards. -/
structure DropResult where
  ret : Int
  effects : List Effect
  creds : Creds
deriving DecidableEq, Repr

/-- The block `if ((uid = geteuid()) == 0) ...` (lines 88-100): the user id to switch
to, or the diagnostic printed before `return -1`. -/
def target_uid (os : ProcessView) : Except Effect Nat :=
  if os.creds.euid = 0 then
    match os.secure_getenv "SUDO_UID" with
    | none => .error (Effect.printf "environment variable `SUDO_UID` not found\n" [])
    | some sudo_uid =>
      if (strtoll sudo_uid).2 ≠ 0 then
        .error (Effect.perror "under-/over-flow in converting `SUDO_UID` to integer")
      else .ok (to_id (strtoll sudo_uid).1)
  else .ok os.creds.euid

/-- The block `if ((gid = getegid()) == 0) ...` (lines 103-115): the group id to switch
to, or the diagnostic printed before `return -1`. -/
def target_gid (os : ProcessView) : Except Effect Nat :=
  if os.creds.egid = 0 then
    match os.secure_getenv "SUDO_GID" with
    | none => .error (Effect.printf "environment variable `SUDO_GID` not found\n" [])
    | some sudo_gid =>
      if (strtoll sudo_gid).2 ≠ 0 then
        .error (Effect.perror "under-/over-flow in converting `SUDO_GID` to integer")
      else .ok (to_id (strtoll sudo_gid).1)
  else .ok os.creds.egid

/-- The function `drop_root_privileges` of collector.c. -/
def drop_root_privileges (os : ProcessView) : DropResult :=
  if os.creds.ruid ≠ 0 then
    ⟨0, [], os.creds⟩
  else
    let pid := read_ppid os os.pid
    let name := (read_comm (os.comm_file pid) os.name_uninit 64).2
    if name = "sudo".toList then
      match target_uid os with
      | .error diag => ⟨-1, [diag], os.creds⟩
      | .ok uid =>
        match target_gid os with
        | .error diag => ⟨-1, [diag], os.creds⟩
        | .ok gid =>
          let r1 := sys_setgroups0 os.creds os.setgroups_refused
          if r1.1 ≠ 0 then
            ⟨-1, [Effect.setgroups 0, Effect.perror "setgroups"], r1.2⟩
          else
            let r2 := sys_setgid r1.2 gid os.setgid_refused
            if r2.1 ≠ 0 then
              ⟨-1, [Effect.setgroups 0, Effect.setgid gid, Effect.perror "setgid"], r2.2⟩
            else
              let r3 := sys_setuid r2.2 uid os.setuid_refused
              if r3.1 ≠ 0 then
                ⟨-1, [Effect.setgroups 0, Effect.setgid gid, Effect.setuid uid,
                      Effect.perror "setgid"], r3.2⟩
              else
                ⟨1, [Effect.setgroups 0, Effect.setgid gid, Effect.setuid uid]
                      ++ (if os.secure_getenv "SUDO_HOME" = none
                          then [Effect.setenv "HOME" "/home/nda" 1] else []), r3.2⟩
    else
      ⟨0, [], os.creds⟩

/-- The identity-changing calls (`setgroups`, `setgid`, `setuid`) in a sequence of calls. -/
def identityCalls : List Effect → List Effect
  | [] => []
  | Effect.setgroups n :: es => Effect.setgroups n :: identityCalls es
  | Effect.setgid g :: es => Effect.setgid g :: identityCalls es
  | Effect.setuid u :: es => Effect.setuid u :: identityCalls es
  | _ :: es => identityCalls es

/-- The `setenv` calls in a sequence of calls. -/
def setenvCalls : List Effect → List Effect
  | [] => []
  | Effect.setenv n v o :: es => Effect.setenv n v o :: setenvCalls es
  | _ :: es => setenvCalls es

/-! ## The session (`main` of collector.c) -/

/-- Modelled from the spec: `cmdline.h` (generated by gengetopt) is not among the
sources; the spec lists the recognized options as verbose, capture, output and network.
These are the fields of `struct gengetopt_args_info` that `main` reads. -/
structure gengetopt_args_info where
  verbose_flag : Int
  capture_arg : Option CString
  network_flag : Int
  output_given : Nat
  output_arg : CString
deriving DecidableEq, Repr

/-- The fields of `struct tm` used by the time stamp. -/
structure tm where
  tm_sec : Nat
  tm_min : Nat
  tm_hour : Nat
  tm_mday : Nat
  tm_mon : Nat
  tm_year : Nat
deriving DecidableEq, Repr

/-- The conversion `%02d` of `strftime` fields. -/
def pad2 (n : Nat) : List Char :=
  if n < 10 then '0' :: Nat.toDigits 10 n else Nat.toDigits 10 n

/-- The text produced by the format `"%Y_%m_%d_%H_%M_%S"`. -/
def format_stamp (t : tm) : CString :=
  Nat.toDigits 10 (t.tm_year + 1900) ++ '_' :: pad2 (t.tm_mon + 1) ++ '_' :: pad2 t.tm_mday
    ++ '_' :: pad2 t.tm_hour ++ '_' :: pad2 t.tm_min ++ '_' :: pad2 t.tm_sec

/-- The call `strftime(s, max, fmt, tm)`: the text is stored when it fits, terminating
NUL included, in `max` bytes; otherwise nothing usable is stored. -/
def strftime (max : Nat) (formatted : CString) : CString :=
  if formatted.length < max then formatted else []

/-- Everything the operating system hands to one run of `main`. -/
structure Env where
  argv0 : CString
  /-- The parsed options, `none` when `cmdline_parser` returns nonzero. -/
  cmdline : Option gengetopt_args_info
  unshare_ret : Int
  proc : ProcessView
  /-- The value of `localtime(time())`. -/
  localtime : tm
  mkdir_ret : Int
  /-- Whether `fopen` of the log returns a non-null stream. -/
  fopen_ok : Bool
  shell : ShellSource
  /-- The value returned by `forkpty`: negative on failure, 0 in the child. -/
  forkpty_pid : Int
  /-- The master descriptor stored by `forkpty` in the parent. -/
  forkpty_master : Int
  /-- Whether `execl` fails in the child. -/
  execl_fails : Bool
  /-- The window size of the terminal, `none` when `ioctl(TIOCGWINSZ)` fails. -/
  tty_winsize : Option winsize
  /-- The attributes stored by `tcgetattr(STDIN_FILENO, &orig)`. -/
  tty_attrs : termios
  epoll_create1_ret : Int
  /-- The results of the successive `epoll_wait` calls. -/
  waits : List WaitResult

/-- How a run of `main` ends in this process. -/
inductive Outcome where
  /-- The process terminated with this status (`exit(status)` or `return status`). -/
  | exited (status : Int)
  /-- The child replaced itself with the shell. -/
  | shell_image
  /-- The trace of `epoll_wait` results is used up; the process is blocked in the loop. -/
  | waiting
deriving DecidableEq, Repr

/-- Run `rest` after the calls `pre`. -/
def after (pre : List Effect) (rest : List Effect × Outcome) : List Effect × Outcome :=
  (pre ++ rest.1, rest.2)

/-- The function `verbose` of utils.c: prints only when the flag set by `setVerbose` is
nonzero. -/
def verbose (verbose_flag : Int) (fmt : String) (args : List PrintfArg) : List Effect :=
  if verbose_flag = 0 then [] else [Effect.printf fmt args]

/-- The function `update_winsize` of collector.c. -/
def update_winsize (global_master_fd : Int) (tty : Option winsize) : List Effect :=
  if global_master_fd < 0 then []
  else
    match tty with
    | some ws => [Effect.ioctl_TIOCSWINSZ global_master_fd ws]
    | none => []

/-- The bytes of the literal written to the PTY master at line 334. -/
def ECHO_LINE : List Char := "echo qualcosa\n".toList

/-- The parent's part of `main` after a successful `forkpty` (lines 289-399). -/
def parent_session (env : Env) (verbose_flag : Int) : List Effect × Outcome :=
  let master_fd := env.forkpty_master
  let pid := env.forkpty_pid
  let orig := env.tty_attrs
  let raw := cfmakeraw orig
  after (update_winsize master_fd env.tty_winsize
      ++ [Effect.signal_SIGWINCH, Effect.tcsetattr STDIN_FILENO TCSANOW raw,
          Effect.epoll_create1 0]) <|
  if env.epoll_create1_ret = -1 then
    ([Effect.perror "[ERROR] epoll_create1 failed\n",
      Effect.tcsetattr STDIN_FILENO TCSANOW orig], Outcome.exited 1)
  else
    after ([Effect.epoll_ctl_add STDIN_FILENO EPOLLIN, Effect.epoll_ctl_add master_fd EPOLLIN]
        ++ verbose verbose_flag
            "[Interactive PTY shell started. Ctrl+C, arrow keys, etc. fully work]\n" []
        ++ [Effect.write master_fd (ECHO_LINE.take ECHO_LINE.length)]) <|
    after (event_loop master_fd env.waits).2 <|
    if (event_loop master_fd env.waits).1 then
      ([], Outcome.waiting)
    else
      ([Effect.tcsetattr STDIN_FILENO TCSANOW orig, Effect.close_ep, Effect.waitpid pid],
        Outcome.exited 0)

/-- The content of `capture_name` after lines 185-205. -/
def capture_name_of (tool_input : gengetopt_args_info) : CString :=
  match tool_input.capture_arg with
  | some arg => snprintf 30 arg
  | none => "capture".toList

/-- The content of `capture_dir` after lines 225-236. -/
def capture_dir_of (tool_input : gengetopt_args_info) (now : tm) : CString :=
  if tool_input.output_given = 0 then
    snprintf 256 ("/tmp/".toList ++ capture_name_of tool_input ++ "_".toList
      ++ strftime 64 (format_stamp now))
  else
    snprintf 256 tool_input.output_arg

/-- The content of `path_shell_capture` after line 248. -/
def path_shell_capture_of (capture_dir : CString) : CString :=
  snprintf 300 (capture_dir ++ "/collector_output.log".toList)

/-- The part of `main` from the creation of the output directory to `forkpty`
(lines 237-287), continued by `parent_session` in the parent. -/
def main_from_mkdir (env : Env) (tool_input : gengetopt_args_info) : List Effect × Outcome :=
  let vf := tool_input.verbose_flag
  let capture_dir := capture_dir_of tool_input env.localtime
  after (verbose vf "Output string: %s\n" [PrintfArg.str capture_dir]
      ++ [Effect.mkdir capture_dir 0o755]) <|
  if env.mkdir_ret = -1 then
    ([Effect.perror "[ERROR] Failed to create the directory\n"], Outcome.exited 1)
  else
    let path_shell_capture := path_shell_capture_of capture_dir
    after (verbose vf "Log are saved in path: %s\n" [PrintfArg.str capture_dir]
        ++ [Effect.fopen path_shell_capture "a"]) <|
    if !env.fopen_ok then
      ([Effect.perror "[ERROR] Cannot open capture log"], Outcome.exited 1)
    else
      after (verbose vf "Shell output is saved in path: %s\n"
          [PrintfArg.str path_shell_capture]) <|
      if (CLib.get_parent_shell_path env.shell true 512).1 ≠ 0 then
        ([Effect.fprintf_stderr "Failed to get shell path\n"], Outcome.exited 1)
      else
        let shell_path := ((CLib.get_parent_shell_path env.shell true 512).2).getD []
        after (verbose vf "Shell path = %s\n" [PrintfArg.str shell_path]
            ++ [Effect.forkpty]) <|
        if env.forkpty_pid < 0 then
          ([Effect.perror "[ERROR] forkpty failed"], Outcome.exited 1)
        else if env.forkpty_pid = 0 then
          after [Effect.execl shell_path shell_path "-i"] <|
          if env.execl_fails then
            ([Effect.perror "[ERROR] execl failed"], Outcome.exited 1)
          else ([], Outcome.shell_image)
        else
          parent_session env vf

/-- The function `main` of collector.c: the calls issued, in order, and how the run
ends. -/
def main (env : Env) : List Effect × Outcome :=
  after [Effect.printf "Program invoked as: %s\n" [PrintfArg.str env.argv0]] <|
  match env.cmdline with
  | none => ([Effect.perror "[ERROR] Failed to parse input"], Outcome.exited 1)
  | some tool_input =>
    let vf := tool_input.verbose_flag
    after (verbose vf "Verbose flag activated" []
        ++ verbose vf "Capture name: %s\n" [PrintfArg.str (capture_name_of tool_input)]) <|
    if tool_input.network_flag ≠ 0 ∧ env.unshare_ret = -1 then
      ([Effect.unshare_newnet, Effect.perror "[ERROR] unshare(CLONE_NEWNET) failed"],
        Outcome.exited (-1))
    else
      after ((if tool_input.network_flag ≠ 0 then [Effect.unshare_newnet] else [])
          ++ (drop_root_privileges env.proc).effects
          ++ [Effect.printf "%d\n" [PrintfArg.int (drop_root_privileges env.proc).ret]]) <|
      main_from_mkdir env tool_input

/-! ## Observations on a run of `main` -/

/-- The `tcsetattr` calls in a sequence of calls, as (descriptor, attributes). -/
def tcsetattrCalls : List Effect → List (Int × termios)
  | [] => []
  | Effect.tcsetattr fd _ t :: es => (fd, t) :: tcsetattrCalls es
  | _ :: es => tcsetattrCalls es

/-- The paths given to `mkdir`. -/
def mkdirPaths : List Effect → List CString
  | [] => []
  | Effect.mkdir path _ :: es => path :: mkdirPaths es
  | _ :: es => mkdirPaths es

/-- The paths given to `fopen`. -/
def fopenPaths : List Effect → List CString
  | [] => []
  | Effect.fopen path _ :: es => path :: fopenPaths es
  | _ :: es => fopenPaths es

/-- The setup steps that follow the privilege drop: directory creation, log creation,
PTY allocation and the exec of the shell. -/
def laterSetupCalls : List Effect → List Effect
  | [] => []
  | Effect.mkdir p m :: es => Effect.mkdir p m :: laterSetupCalls es
  | Effect.fopen p m :: es => Effect.fopen p m :: laterSetupCalls es
  | Effect.forkpty :: es => Effect.forkpty :: laterSetupCalls es
  | Effect.execl p a b :: es => Effect.execl p a b :: laterSetupCalls es
  | _ :: es => laterSetupCalls es

/-- The trace `t2` is the trace `t1` with EINTR-failed waits inserted at arbitrary places. -/
inductive Interrupted : List WaitResult → List WaitResult → Prop where
  | done : Interrupted [] []
  | same (w : WaitResult) {t1 t2 : List WaitResult} :
      Interrupted t1 t2 → Interrupted (w :: t1) (w :: t2)
  | eintr {t1 t2 : List WaitResult} :
      Interrupted t1 t2 → Interrupted t1 (WaitResult.failed EINTR :: t2)

/-- A call that is neither `tcsetattr`, `mkdir` nor `fopen`. -/
def neutral : Effect → Bool
  | Effect.tcsetattr _ _ _ => false
  | Effect.mkdir _ _ => false
  | Effect.fopen _ _ => false
  | _ => true

/-! ## Sample inputs -/

/-- A sample trace: the PTY delivers two chunks, the user types one, the shell hangs up. -/
def sampleTrace : List WaitResult :=
  [ WaitResult.ready [⟨⟨EPOLLIN, 3⟩, ReadResult.data "he".toList⟩],
    WaitResult.failed EINTR,
    WaitResult.ready [⟨⟨EPOLLIN, 0⟩, ReadResult.data "ls\n".toList⟩,
                      ⟨⟨EPOLLIN, 3⟩, ReadResult.data "llo".toList⟩],
    WaitResult.ready [⟨⟨EPOLLIN ||| EPOLLHUP, 3⟩, ReadResult.data "bye".toList⟩] ]

/-- The sample trace without its interrupted wait. -/
def plainTrace : List WaitResult :=
  [ WaitResult.ready [⟨⟨EPOLLIN, 3⟩, ReadResult.data "he".toList⟩],
    WaitResult.ready [⟨⟨EPOLLIN, 0⟩, ReadResult.data "ls\n".toList⟩,
                      ⟨⟨EPOLLIN, 3⟩, ReadResult.data "llo".toList⟩],
    WaitResult.ready [⟨⟨EPOLLIN ||| EPOLLHUP, 3⟩, ReadResult.data "bye".toList⟩] ]

/-- An environment in which only SUDO_UID and SUDO_GID may be set. -/
def sudoMarkers (uid gid : Option CString) : String → Option CString :=
  fun name => if name = "SUDO_UID" then uid else if name = "SUDO_GID" then gid else none

/-- An ordinary user (uid 1000) started from a zsh. -/
def userProc : ProcessView :=
  { creds := ⟨1000, 1000, 1000, 1000, 1000, 1000, [1000, 27]⟩
    pid := 4242
    status_ppid := fun _ => 4000
    comm_file := fun _ => some "zsh\n".toList
    name_uninit := []
    secure_getenv := fun _ => none
    setgroups_refused := false
    setgid_refused := false
    setuid_refused := false }

/-- A root process (real and effective uid 0) whose parent is `sudo`, with group id
`gid` and the given SUDO_UID and SUDO_GID markers. -/
def rootViaSudo (gid : Nat) (sudo_uid sudo_gid : Option CString) : ProcessView :=
  { creds := ⟨0, 0, 0, gid, gid, gid, [gid]⟩
    pid := 4242
    status_ppid := fun _ => 4000
    comm_file := fun _ => some "sudo\n".toList
    name_uninit := []
    secure_getenv := sudoMarkers sudo_uid sudo_gid
    setgroups_refused := false
    setgid_refused := false
    setuid_refused := false }

/-- Cooked-mode terminal attributes. -/
def cookedTty : termios :=
  { c_iflag := 0o2402, c_oflag := 0o5, c_cflag := 0o277, c_lflag := 0o105073,
    c_cc := [3, 28, 127, 21, 4, 0, 1, 0] }

/-- A session of an ordinary user on a terminal, with the shell on PTY descriptor 3,
driven by the sample trace. -/
def sampleEnv : Env :=
  { argv0 := "./collector".toList
    cmdline := some ⟨0, none, 0, 0, []⟩
    unshare_ret := 0
    proc := userProc
    localtime := ⟨5, 4, 13, 30, 9, 126⟩
    mkdir_ret := 0
    fopen_ok := true
    shell := ⟨some "/usr/bin/zsh".toList, some "/bin/bash".toList⟩
    forkpty_pid := 4300
    forkpty_master := 3
    execl_fails := false
    tty_winsize := some ⟨24, 80, 0, 0⟩
    tty_attrs := cookedTty
    epoll_create1_ret := 4
    waits := sampleTrace }

/-- The sample session started with a capture name of 30 bytes. -/
def longNameEnv : Env :=
  { sampleEnv with cmdline := some ⟨0, some (List.replicate 30 'a'), 0, 0, []⟩ }

/-- The sample session started with an explicit output path of 256 bytes. -/
def longPathEnv : Env :=
  { sampleEnv with cmdline := some ⟨0, none, 0, 1, '/' :: List.replicate 255 'd'⟩ }

/-- The sample session run by root under sudo with SUDO_UID missing. -/
def failedDropEnv : Env :=
  { sampleEnv with proc := rootViaSudo 0 none (some "1000".toList) }

/-- The child's side of `failedDropEnv`: `forkpty` returns 0. -/
def failedDropChildEnv : Env :=
  { failedDropEnv with forkpty_pid := 0 }

/-! ## Lemmas on the observations -/

theorem writesTo_append (fd : Int) (a b : List Effect) :
    writesTo fd (a ++ b) = writesTo fd a ++ writesTo fd b := by
  induction a with
  | nil => rfl
  | cons e es ih =>
    cases e <;> simp [writesTo, ih]
    split <;> simp

theorem logAppends_append (a b : List Effect) :
    logAppends (a ++ b) = logAppends a ++ logAppends b := by
  induction a with
  | nil => rfl
  | cons e es ih => cases e <;> simp [logAppends, ih]

theorem readsFrom_append (fd : Int) (a b : List Effect) :
    readsFrom fd (a ++ b) = readsFrom fd a ++ readsFrom fd b := by
  induction a with
  | nil => rfl
  | cons e es ih =>
    cases e <;> simp [readsFrom, ih]
    split <;> simp

theorem flushed_append (a b : List Effect) (ha : flushedAfterEachAppend a = true)
    (hb : flushedAfterEachAppend b = true) : flushedAfterEachAppend (a ++ b) = true := by
  induction a using flushedAfterEachAppend.induct with
  | case1 => simpa using hb
  | case2 bytes es ih =>
    simp only [flushedAfterEachAppend] at ha
    simpa [flushedAfterEachAppend] using ih ha
  | case3 bytes es hne =>
    exfalso
    cases es with
    | nil => simp [flushedAfterEachAppend] at ha
    | cons e es1 =>
      cases e <;> first
        | exact absurd rfl (hne _)
        | simp [flushedAfterEachAppend] at ha
  | case4 e es h1 h2 ih =>
    cases e <;> first
      | exact absurd rfl (h1 _ _)
      | exact absurd rfl (h2 _)
      | (simp only [flushedAfterEachAppend] at ha
         simpa [flushedAfterEachAppend] using ih ha)

/-! ## The I/O loop -/

theorem sys_read_take (r : ReadResult) (count : Nat) :
    (sys_read r count).2.take (sys_read r count).1.toNat = (sys_read r count).2 := by
  cases r with
  | data bytes =>
    show (bytes.take count).take (((bytes.take count).length : Nat) : Int).toNat = _
    rw [Int.toNat_ofNat, List.take_length]
    rfl
  | error e => simp [sys_read]

theorem for_events_append (m : Int) (pre rest : List Ready)
    (h : (for_events m pre).1 = true) :
    for_events m (pre ++ rest)
      = ((for_events m rest).1, (for_events m pre).2 ++ (for_events m rest).2) := by
  induction pre with
  | nil => simp [for_events]
  | cons r pre ih =>
    simp only [List.cons_append, for_events] at h ⊢
    split_ifs at h ⊢ <;> simp_all

theorem event_loop_append (m : Int) (pre rest : List WaitResult)
    (h : (event_loop m pre).1 = true) :
    event_loop m (pre ++ rest)
      = ((event_loop m rest).1, (event_loop m pre).2 ++ (event_loop m rest).2) := by
  induction pre with
  | nil => simp [event_loop]
  | cons w pre ih =>
    simp only [List.cons_append, event_loop] at h ⊢
    split_ifs at h ⊢ <;> simp_all

theorem event_loop_ready (m : Int) (evs : List Ready) (ws : List WaitResult) :
    event_loop m (WaitResult.ready evs :: ws)
      = if (for_events m (evs.take MAX_EVENTS)).1 then
          ((event_loop m ws).1,
            Effect.epoll_wait ((evs.take MAX_EVENTS).length : Nat)
              :: ((for_events m (evs.take MAX_EVENTS)).2 ++ (event_loop m ws).2))
        else
          (false, Effect.epoll_wait ((evs.take MAX_EVENTS).length : Nat)
            :: (for_events m (evs.take MAX_EVENTS)).2) := by
  have hn : ¬ (((evs.take MAX_EVENTS).length : Nat) : Int) < 0 := by omega
  simp only [event_loop, sys_epoll_wait]
  rw [if_neg hn]

theorem event_loop_failed (m : Int) (e : Int) (ws : List WaitResult) :
    event_loop m (WaitResult.failed e :: ws)
      = if e = EINTR then
          ((event_loop m ws).1, Effect.epoll_wait (-1) :: (event_loop m ws).2)
        else
          (false, [Effect.epoll_wait (-1), Effect.perror "[ERROR] epoll_wait failed"]) := by
  simp only [event_loop, sys_epoll_wait, errno_of]
  rw [if_pos (by decide)]

theorem for_events_mirror (m : Int) (hin : m ≠ STDIN_FILENO) (hout : m ≠ STDOUT_FILENO)
    (evs : List Ready) :
    writesTo STDOUT_FILENO (for_events m evs).2 = readsFrom m (for_events m evs).2
      ∧ logAppends (for_events m evs).2 = readsFrom m (for_events m evs).2
      ∧ flushedAfterEachAppend (for_events m evs).2 = true := by
  induction evs with
  | nil => simp [for_events, writesTo, readsFrom, logAppends, flushedAfterEachAppend]
  | cons r rest ih =>
    obtain ⟨ih1, ih2, ih3⟩ := ih
    simp only [for_events]
    split_ifs with h1 h2 h3 h4 h5
    · simp [writesTo, readsFrom, logAppends, flushedAfterEachAppend]
    · simp [writesTo, readsFrom, logAppends, flushedAfterEachAppend, Ne.symm hin]
    · simp [writesTo, readsFrom, logAppends, flushedAfterEachAppend, Ne.symm hin, hout, ih1,
        ih2, ih3]
    · have hn : ¬ (0 < (sys_read r.pending BUF_SIZE).1) := not_lt.mpr h5
      simp [writesTo, readsFrom, logAppends, flushedAfterEachAppend, hn]
    · have hn : 0 < (sys_read r.pending BUF_SIZE).1 := not_le.mp h5
      simp [writesTo, readsFrom, logAppends, flushedAfterEachAppend, hn, ih1, ih2, ih3,
        sys_read_take]
    · exact ⟨ih1, ih2, ih3⟩

/-- C1: for every trace of readiness events and read results fed to the I/O loop, the bytes
written to STDOUT and the bytes appended to the log are both exactly the concatenation, in
order, of the chunks returned by the successful reads from the PTY master, and every log
append is immediately followed by a flush.  The PTY master is a descriptor of its own,
distinct from the terminal's standard input and output. -/
theorem C1_output_and_log_mirror_pty_reads (master_fd : Int)
    (hin : master_fd ≠ STDIN_FILENO) (hout : master_fd ≠ STDOUT_FILENO)
    (trace : List WaitResult) :
    writesTo STDOUT_FILENO (event_loop master_fd trace).2
        = readsFrom master_fd (event_loop master_fd trace).2
      ∧ logAppends (event_loop master_fd trace).2
        = readsFrom master_fd (event_loop master_fd trace).2
      ∧ logAppends (event_loop master_fd trace).2
        = writesTo STDOUT_FILENO (event_loop master_fd trace).2
      ∧ flushedAfterEachAppend (event_loop master_fd trace).2 = true := by
  induction trace with
  | nil => simp [event_loop, writesTo, readsFrom, logAppends, flushedAfterEachAppend]
  | cons w ws ih =>
    obtain ⟨ih1, ih2, -, ih4⟩ := ih
    obtain ⟨f1, f2, f3⟩ :=
      for_events_mirror master_fd hin hout (sys_epoll_wait w MAX_EVENTS).2
    simp only [event_loop]
    split_ifs with h1 h2 h3
    · simp [writesTo, readsFrom, logAppends, flushedAfterEachAppend, ih1, ih2, ih4]
    · simp [writesTo, readsFrom, logAppends, flushedAfterEachAppend]
    · simp [writesTo, readsFrom, logAppends, flushedAfterEachAppend, writesTo_append,
        readsFrom_append, logAppends_append, ih1, ih2, f1, f2, flushed_append _ _ f3 ih4]
    · simp [writesTo, readsFrom, logAppends, flushedAfterEachAppend, f1, f2, f3]

/-- C1 witness: on the sample trace with the PTY master on descriptor 3, the live output
and the log both hold the bytes "hello". -/
theorem C1_output_and_log_mirror_pty_reads_witness :
    ((3 : Int) ≠ STDIN_FILENO ∧ (3 : Int) ≠ STDOUT_FILENO)
      ∧ readsFrom 3 (event_loop 3 sampleTrace).2 = "hello".toList
      ∧ (writesTo STDOUT_FILENO (event_loop 3 sampleTrace).2
            = readsFrom 3 (event_loop 3 sampleTrace).2
          ∧ logAppends (event_loop 3 sampleTrace).2
            = readsFrom 3 (event_loop 3 sampleTrace).2
          ∧ logAppends (event_loop 3 sampleTrace).2
            = writesTo STDOUT_FILENO (event_loop 3 sampleTrace).2
          ∧ flushedAfterEachAppend (event_loop 3 sampleTrace).2 = true) :=
  ⟨by decide, by decide,
    C1_output_and_log_mirror_pty_reads 3 (by decide) (by decide) sampleTrace⟩

/-- C10: in the I/O loop the hangup/error check comes before any read.  When an event of a
batch carries EPOLLHUP or EPOLLERR (whatever its other flags, EPOLLIN included), the loop
stops having issued only the calls of the events before it: nothing is read or written
for that event, for the later events of the batch or for later waits.  Likewise, when the
read for an event returns n <= 0 the loop stops right after that read and the remaining
events of the batch are discarded. -/
theorem C10_hangup_precedes_reading (master_fd : Int) (pre post : List Ready) (r : Ready)
    (ws : List WaitResult)
    (hlen : (pre ++ r :: post).length ≤ MAX_EVENTS)
    (hpre : (for_events master_fd pre).1 = true) :
    (r.ev.events &&& (EPOLLHUP ||| EPOLLERR) ≠ 0 →
        event_loop master_fd (WaitResult.ready (pre ++ r :: post) :: ws)
          = (false, Effect.epoll_wait ((pre ++ r :: post).length : Nat)
                      :: (for_events master_fd pre).2))
      ∧ (r.ev.events &&& (EPOLLHUP ||| EPOLLERR) = 0 →
          r.ev.events &&& EPOLLIN ≠ 0 →
          (r.ev.fd = STDIN_FILENO ∨ r.ev.fd = master_fd) →
          (sys_read r.pending BUF_SIZE).1 ≤ 0 →
          event_loop master_fd (WaitResult.ready (pre ++ r :: post) :: ws)
            = (false, Effect.epoll_wait ((pre ++ r :: post).length : Nat)
                        :: ((for_events master_fd pre).2
                            ++ [Effect.read r.ev.fd (sys_read r.pending BUF_SIZE).1
                                  (sys_read r.pending BUF_SIZE).2]))) := by
  have htake : (pre ++ r :: post).take MAX_EVENTS = pre ++ r :: post :=
    List.take_of_length_le hlen
  constructor
  · intro hup
    have hr : for_events master_fd (r :: post) = (false, []) := by
      simp only [for_events]
      rw [if_pos hup]
    rw [event_loop_ready, htake, for_events_append master_fd pre (r :: post) hpre, hr]
    simp
  · intro hup hin hfd hn
    have hr : for_events master_fd (r :: post)
        = (false, [Effect.read r.ev.fd (sys_read r.pending BUF_SIZE).1
                    (sys_read r.pending BUF_SIZE).2]) := by
      simp only [for_events]
      rw [if_neg (not_not.mpr hup)]
      by_cases h0 : r.ev.fd = STDIN_FILENO
      · rw [if_pos ⟨h0, hin⟩, if_pos hn, h0]
      · have hm : r.ev.fd = master_fd := hfd.resolve_left h0
        rw [if_neg (fun h => h0 h.1), if_pos ⟨hm, hin⟩, if_pos hn, hm]
    rw [event_loop_ready, htake, for_events_append master_fd pre (r :: post) hpre, hr]
    simp

/-- C10 witness: a batch whose second event is a hangup flagged readable with bytes
pending. -/
theorem C10_hangup_precedes_reading_witness :
    event_loop 3 (WaitResult.ready
        ([⟨⟨EPOLLIN, 3⟩, ReadResult.data "a".toList⟩]
          ++ ⟨⟨EPOLLIN ||| EPOLLHUP, 3⟩, ReadResult.data "lost".toList⟩
          :: [⟨⟨EPOLLIN, 3⟩, ReadResult.data "later".toList⟩])
        :: [WaitResult.ready [⟨⟨EPOLLIN, 3⟩, ReadResult.data "never".toList⟩]])
      = (false, Effect.epoll_wait 3
          :: (for_events 3 [⟨⟨EPOLLIN, 3⟩, ReadResult.data "a".toList⟩]).2) :=
  (C10_hangup_precedes_reading 3 [⟨⟨EPOLLIN, 3⟩, ReadResult.data "a".toList⟩]
    [⟨⟨EPOLLIN, 3⟩, ReadResult.data "later".toList⟩]
    ⟨⟨EPOLLIN ||| EPOLLHUP, 3⟩, ReadResult.data "lost".toList⟩
    [WaitResult.ready [⟨⟨EPOLLIN, 3⟩, ReadResult.data "never".toList⟩]]
    (by decide) (by decide)).1 (by decide)

theorem event_loop_interrupted (m : Int) {t1 t2 : List WaitResult} (h : Interrupted t1 t2) :
    (event_loop m t2).1 = (event_loop m t1).1
      ∧ (∀ fd, writesTo fd (event_loop m t2).2 = writesTo fd (event_loop m t1).2)
      ∧ logAppends (event_loop m t2).2 = logAppends (event_loop m t1).2 := by
  induction h with
  | done => exact ⟨rfl, fun _ => rfl, rfl⟩
  | same w _ ih =>
    obtain ⟨ih1, ih2, ih3⟩ := ih
    cases w with
    | ready evs =>
      simp only [event_loop_ready]
      split_ifs <;>
        simp [writesTo, logAppends, writesTo_append, logAppends_append, ih1, ih2, ih3]
    | failed e =>
      simp only [event_loop_failed]
      split_ifs <;> simp [writesTo, logAppends, ih1, ih2, ih3]
  | eintr _ ih =>
    obtain ⟨ih1, ih2, ih3⟩ := ih
    rw [event_loop_failed, if_pos rfl]
    simp [writesTo, logAppends, ih1, ih2, ih3]

/-- C9: interrupted waits are retried transparently.  When `t2` is the trace `t1` with
EINTR-failed waits inserted, the loop on `t2` leaves (or keeps waiting) exactly as on `t1`,
writes the same bytes to every descriptor (the PTY master and stdout among them), appends
the same bytes to the log, and the session ends the same way.  A wait that fails with
EINTR never ends the loop; a wait that fails with any other errno ends it, and the session
then runs the cleanup tail: terminal restore, close, child reaped, exit status 0. -/
theorem C9_interrupted_waits_are_retried (master_fd : Int) (t1 t2 : List WaitResult)
    (h : Interrupted t1 t2) (fd : Int) (env : Env) (vf : Int)
    (ws before later : List WaitResult) (e : Int) :
    ((event_loop master_fd t2).1 = (event_loop master_fd t1).1
      ∧ writesTo fd (event_loop master_fd t2).2 = writesTo fd (event_loop master_fd t1).2
      ∧ logAppends (event_loop master_fd t2).2 = logAppends (event_loop master_fd t1).2
      ∧ (parent_session { env with waits := t2 } vf).2
          = (parent_session { env with waits := t1 } vf).2)
    ∧ event_loop master_fd (WaitResult.failed EINTR :: ws)
        = ((event_loop master_fd ws).1,
            Effect.epoll_wait (-1) :: (event_loop master_fd ws).2)
    ∧ (e ≠ EINTR →
        event_loop master_fd (WaitResult.failed e :: ws)
          = (false, [Effect.epoll_wait (-1), Effect.perror "[ERROR] epoll_wait failed"]))
    ∧ (e ≠ EINTR → env.epoll_create1_ret ≠ -1 →
        (event_loop env.forkpty_master before).1 = true →
        (parent_session { env with waits := before ++ WaitResult.failed e :: later } vf).2
            = Outcome.exited 0
          ∧ ∃ calls,
            (parent_session { env with waits := before ++ WaitResult.failed e :: later } vf).1
              = calls ++ [Effect.epoll_wait (-1), Effect.perror "[ERROR] epoll_wait failed",
                    Effect.tcsetattr STDIN_FILENO TCSANOW env.tty_attrs, Effect.close_ep,
                    Effect.waitpid env.forkpty_pid]) := by
  obtain ⟨h1, h2, h3⟩ := event_loop_interrupted master_fd h
  obtain ⟨g1, -, -⟩ := event_loop_interrupted env.forkpty_master h
  refine ⟨⟨h1, h2 fd, h3, ?_⟩, ?_, ?_, ?_⟩
  · simp only [parent_session, after, g1]
    split_ifs <;> rfl
  · rw [event_loop_failed, if_pos rfl]
  · intro he
    rw [event_loop_failed, if_neg he]
  · intro he hep hrun
    have hl : event_loop env.forkpty_master (before ++ WaitResult.failed e :: later)
        = (false, (event_loop env.forkpty_master before).2
            ++ [Effect.epoll_wait (-1), Effect.perror "[ERROR] epoll_wait failed"]) := by
      rw [event_loop_append _ _ _ hrun, event_loop_failed, if_neg he]
    simp only [parent_session, after, hl, if_neg hep]
    refine ⟨by simp, ?_⟩
    refine ⟨update_winsize env.forkpty_master env.tty_winsize
      ++ [Effect.signal_SIGWINCH,
          Effect.tcsetattr STDIN_FILENO TCSANOW (cfmakeraw env.tty_attrs),
          Effect.epoll_create1 0, Effect.epoll_ctl_add STDIN_FILENO EPOLLIN,
          Effect.epoll_ctl_add env.forkpty_master EPOLLIN]
      ++ verbose vf "[Interactive PTY shell started. Ctrl+C, arrow keys, etc. fully work]\n" []
      ++ [Effect.write env.forkpty_master (ECHO_LINE.take ECHO_LINE.length)]
      ++ (event_loop env.forkpty_master before).2, ?_⟩
    simp

/-! ## The session around the loop -/

theorem neutral_for_events (m : Int) (evs : List Ready) :
    ∀ e ∈ (for_events m evs).2, neutral e = true := by
  induction evs with
  | nil => simp [for_events]
  | cons r rest ih =>
    simp only [for_events]
    split_ifs <;> simp_all [neutral]

theorem neutral_event_loop (m : Int) (t : List WaitResult) :
    ∀ e ∈ (event_loop m t).2, neutral e = true := by
  induction t with
  | nil => simp [event_loop]
  | cons w ws ih =>
    have hf := neutral_for_events m (sys_epoll_wait w MAX_EVENTS).2
    simp only [event_loop]
    split_ifs
    · simpa [neutral] using ih
    · simp [neutral]
    · intro e he
      simp only [List.mem_cons, List.mem_append] at he
      rcases he with rfl | he | he
      · rfl
      · exact hf e he
      · exact ih e he
    · intro e he
      simp only [List.mem_cons] at he
      rcases he with rfl | he
      · rfl
      · exact hf e he

theorem neutral_verbose (vf : Int) (fmt : String) (args : List PrintfArg) :
    ∀ e ∈ verbose vf fmt args, neutral e = true := by
  unfold verbose
  split_ifs <;> simp [neutral]

theorem neutral_update_winsize (fd : Int) (tty : Option winsize) :
    ∀ e ∈ update_winsize fd tty, neutral e = true := by
  unfold update_winsize
  split_ifs
  · simp
  · cases tty <;> simp [neutral]

theorem neutral_target_uid (os : ProcessView) (d : Effect) (h : target_uid os = .error d) :
    neutral d = true := by
  unfold target_uid at h
  split_ifs at h
  · split at h
    · cases h; rfl
    · split_ifs at h
      cases h; rfl

theorem neutral_target_gid (os : ProcessView) (d : Effect) (h : target_gid os = .error d) :
    neutral d = true := by
  unfold target_gid at h
  split_ifs at h
  · split at h
    · cases h; rfl
    · split_ifs at h
      cases h; rfl

theorem neutral_drop (os : ProcessView) :
    ∀ e ∈ (drop_root_privileges os).effects, neutral e = true := by
  cases hu : target_uid os with
  | error d =>
    have hd := neutral_target_uid os d hu
    simp only [drop_root_privileges, hu]
    split_ifs <;> simp [hd]
  | ok uid =>
    cases hg : target_gid os with
    | error d =>
      have hd := neutral_target_gid os d hg
      simp only [drop_root_privileges, hu, hg]
      split_ifs <;> simp [hd]
    | ok gid =>
      simp only [drop_root_privileges, hu, hg]
      split_ifs <;> simp [neutral]

theorem tcsetattrCalls_append (a b : List Effect) :
    tcsetattrCalls (a ++ b) = tcsetattrCalls a ++ tcsetattrCalls b := by
  induction a with
  | nil => rfl
  | cons e es ih => cases e <;> simp [tcsetattrCalls, ih]

theorem mkdirPaths_append (a b : List Effect) :
    mkdirPaths (a ++ b) = mkdirPaths a ++ mkdirPaths b := by
  induction a with
  | nil => rfl
  | cons e es ih => cases e <;> simp [mkdirPaths, ih]

theorem fopenPaths_append (a b : List Effect) :
    fopenPaths (a ++ b) = fopenPaths a ++ fopenPaths b := by
  induction a with
  | nil => rfl
  | cons e es ih => cases e <;> simp [fopenPaths, ih]

theorem tcsetattrCalls_neutral (l : List Effect) (h : ∀ e ∈ l, neutral e = true) :
    tcsetattrCalls l = [] := by
  induction l with
  | nil => rfl
  | cons e es ih =>
    have he := h e (List.mem_cons_self _ _)
    have hes := ih (fun x hx => h x (List.mem_cons_of_mem _ hx))
    cases e <;> simp_all [tcsetattrCalls, neutral]

theorem mkdirPaths_neutral (l : List Effect) (h : ∀ e ∈ l, neutral e = true) :
    mkdirPaths l = [] := by
  induction l with
  | nil => rfl
  | cons e es ih =>
    have he := h e (List.mem_cons_self _ _)
    have hes := ih (fun x hx => h x (List.mem_cons_of_mem _ hx))
    cases e <;> simp_all [mkdirPaths, neutral]

theorem fopenPaths_neutral (l : List Effect) (h : ∀ e ∈ l, neutral e = true) :
    fopenPaths l = [] := by
  induction l with
  | nil => rfl
  | cons e es ih =>
    have he := h e (List.mem_cons_self _ _)
    have hes := ih (fun x hx => h x (List.mem_cons_of_mem _ hx))
    cases e <;> simp_all [fopenPaths, neutral]

theorem after_after (a b : List Effect) (r : List Effect × Outcome) :
    after a (after b r) = after (a ++ b) r := by
  simp [after]

theorem tcsetattrCalls_parent_session (env : Env) (vf : Int) :
    tcsetattrCalls (parent_session env vf).1
      = if (parent_session env vf).2 = Outcome.waiting then
          [(STDIN_FILENO, cfmakeraw env.tty_attrs)]
        else
          [(STDIN_FILENO, cfmakeraw env.tty_attrs), (STDIN_FILENO, env.tty_attrs)] := by
  have h1 := tcsetattrCalls_neutral _ (neutral_update_winsize env.forkpty_master env.tty_winsize)
  have h2 := tcsetattrCalls_neutral _ (neutral_verbose vf
    "[Interactive PTY shell started. Ctrl+C, arrow keys, etc. fully work]\n" [])
  have h3 := tcsetattrCalls_neutral _ (neutral_event_loop env.forkpty_master env.waits)
  simp only [parent_session, after]
  split_ifs <;> simp_all [tcsetattrCalls_append, tcsetattrCalls]

theorem main_shape (env : Env) :
    tcsetattrCalls (main env).1 = []
      ∨ ∃ pre vf, tcsetattrCalls pre = [] ∧ main env = after pre (parent_session env vf) := by
  cases hc : env.cmdline with
  | none => left; simp [main, hc, after, tcsetattrCalls]
  | some ti =>
    have v := fun fmt args => tcsetattrCalls_neutral _ (neutral_verbose ti.verbose_flag fmt args)
    have d := tcsetattrCalls_neutral _ (neutral_drop env.proc)
    simp only [main, hc, main_from_mkdir]
    split_ifs
    all_goals first
      | (left; simp [after, tcsetattrCalls_append, tcsetattrCalls, v, d]; done)
      | (right
         simp only [after_after]
         refine ⟨_, _, ?_, rfl⟩
         simp [tcsetattrCalls_append, tcsetattrCalls, v, d])

/-- C3: on every path by which `main` leaves after the terminal was switched to raw mode
(input EOF or read error, PTY EOF or read error, hangup/error event, non-EINTR `epoll_wait`
failure, `epoll_create1` failure), the `tcsetattr` calls of the run are exactly two: the
switch to raw mode, then one restoration whose attributes are the snapshot stored by
`tcgetattr`.  So the last attributes set are the snapshot and it is restored exactly
once. -/
theorem C3_terminal_restored_exactly_once (env : Env) (status : Int)
    (hleft : (main env).2 = Outcome.exited status)
    (hraw : tcsetattrCalls (main env).1 ≠ []) :
    tcsetattrCalls (main env).1
      = [(STDIN_FILENO, cfmakeraw env.tty_attrs), (STDIN_FILENO, env.tty_attrs)] := by
  rcases main_shape env with h | ⟨pre, vf, hpre, hmain⟩
  · exact absurd h hraw
  · rw [hmain] at hleft ⊢
    simp only [after] at hleft ⊢
    rw [tcsetattrCalls_append, hpre, tcsetattrCalls_parent_session, List.nil_append,
      if_neg (by rw [hleft]; exact fun h => Outcome.noConfusion h)]

/-- C3 witness: the sample session ends on a PTY hangup with status 0, having set the raw
attributes and then the saved ones. -/
theorem C3_terminal_restored_exactly_once_witness :
    (main sampleEnv).2 = Outcome.exited 0
      ∧ tcsetattrCalls (main sampleEnv).1 ≠ []
      ∧ tcsetattrCalls (main sampleEnv).1
          = [(STDIN_FILENO, cfmakeraw cookedTty), (STDIN_FILENO, cookedTty)] :=
  ⟨by decide, by decide,
    C3_terminal_restored_exactly_once sampleEnv 0 (by decide) (by decide)⟩

/-! ## Output directory and log path -/

theorem snprintf_fits (size : Nat) (text : CString) (h : text.length < size) :
    snprintf size text = text := by
  unfold snprintf
  exact List.take_of_length_le (by omega)

theorem snprintf_length (size : Nat) (text : CString) (h : 0 < size) :
    (snprintf size text).length < size := by
  unfold snprintf
  rw [List.length_take]
  omega

theorem capture_dir_length (ti : gengetopt_args_info) (now : tm) :
    (capture_dir_of ti now).length < 256 := by
  unfold capture_dir_of
  split_ifs <;> exact snprintf_length 256 _ (by norm_num)

theorem path_shell_capture_eq (ti : gengetopt_args_info) (now : tm) :
    path_shell_capture_of (capture_dir_of ti now)
      = capture_dir_of ti now ++ "/collector_output.log".toList := by
  have h := capture_dir_length ti now
  unfold path_shell_capture_of
  apply snprintf_fits
  have hl : "/collector_output.log".toList.length = 21 := by decide
  rw [List.length_append, hl]
  omega

theorem mkdirPaths_parent_session (env : Env) (vf : Int) :
    mkdirPaths (parent_session env vf).1 = [] ∧ fopenPaths (parent_session env vf).1 = [] := by
  have h1 := mkdirPaths_neutral _ (neutral_update_winsize env.forkpty_master env.tty_winsize)
  have h2 := mkdirPaths_neutral _ (neutral_verbose vf
    "[Interactive PTY shell started. Ctrl+C, arrow keys, etc. fully work]\n" [])
  have h3 := mkdirPaths_neutral _ (neutral_event_loop env.forkpty_master env.waits)
  have g1 := fopenPaths_neutral _ (neutral_update_winsize env.forkpty_master env.tty_winsize)
  have g2 := fopenPaths_neutral _ (neutral_verbose vf
    "[Interactive PTY shell started. Ctrl+C, arrow keys, etc. fully work]\n" [])
  have g3 := fopenPaths_neutral _ (neutral_event_loop env.forkpty_master env.waits)
  simp only [parent_session, after]
  split_ifs <;>
    simp_all [mkdirPaths_append, mkdirPaths, fopenPaths_append, fopenPaths]

theorem paths_main_from_mkdir (env : Env) (ti : gengetopt_args_info) :
    mkdirPaths (main_from_mkdir env ti).1 = [capture_dir_of ti env.localtime]
      ∧ (env.mkdir_ret ≠ -1 →
          fopenPaths (main_from_mkdir env ti).1
            = [path_shell_capture_of (capture_dir_of ti env.localtime)]) := by
  have v := fun fmt args => mkdirPaths_neutral _ (neutral_verbose ti.verbose_flag fmt args)
  have w := fun fmt args => fopenPaths_neutral _ (neutral_verbose ti.verbose_flag fmt args)
  obtain ⟨p1, p2⟩ := mkdirPaths_parent_session env ti.verbose_flag
  simp only [main_from_mkdir, after]
  split_ifs <;>
    simp_all [mkdirPaths_append, mkdirPaths, fopenPaths_append, fopenPaths]

theorem paths_main (env : Env) (ti : gengetopt_args_info) (hc : env.cmdline = some ti)
    (hnet : ¬ (ti.network_flag ≠ 0 ∧ env.unshare_ret = -1)) :
    mkdirPaths (main env).1 = [capture_dir_of ti env.localtime]
      ∧ (env.mkdir_ret ≠ -1 →
          fopenPaths (main env).1
            = [path_shell_capture_of (capture_dir_of ti env.localtime)]) := by
  have v := fun fmt args => mkdirPaths_neutral _ (neutral_verbose ti.verbose_flag fmt args)
  have w := fun fmt args => fopenPaths_neutral _ (neutral_verbose ti.verbose_flag fmt args)
  have d1 := mkdirPaths_neutral _ (neutral_drop env.proc)
  have d2 := fopenPaths_neutral _ (neutral_drop env.proc)
  obtain ⟨m1, m2⟩ := paths_main_from_mkdir env ti
  simp only [main, hc, after, if_neg hnet]
  constructor
  · split_ifs <;> simp [mkdirPaths_append, mkdirPaths, v, d1, m1]
  · intro hm
    split_ifs <;> simp [fopenPaths_append, fopenPaths, w, d2, m2 hm]

/-- C8 (amended): when the options parse and network isolation, if requested, succeeds,
`main` calls `mkdir` exactly once.  Without an explicit output path, for a capture name of
at most 29 bytes (the name "capture" when none is supplied) and a time stamp that fits
`strftime`'s 64-byte buffer, the directory is exactly "/tmp/" ++ name ++ "_" ++ the local
start time formatted as YYYY_MM_DD_HH_MM_SS.  With an explicit output path of at most 255
bytes the directory is exactly that path.  Whenever `mkdir` succeeds the log opened is the
directory passed to `mkdir` followed by "/collector_output.log".  In general, for names
and paths of any length, the directory is built from the first 29 bytes of the capture
name, and an explicit output path is used up to its first 255 bytes. -/
theorem C8_directory_naming (env : Env) (ti : gengetopt_args_info)
    (hc : env.cmdline = some ti)
    (hnet : ¬ (ti.network_flag ≠ 0 ∧ env.unshare_ret = -1)) :
    (ti.output_given = 0 →
        (ti.capture_arg.getD "capture".toList).length ≤ 29 →
        (format_stamp env.localtime).length < 64 →
        mkdirPaths (main env).1
          = ["/tmp/".toList ++ ti.capture_arg.getD "capture".toList ++ "_".toList
              ++ format_stamp env.localtime])
      ∧ (ti.output_given ≠ 0 → ti.output_arg.length ≤ 255 →
          mkdirPaths (main env).1 = [ti.output_arg])
      ∧ (env.mkdir_ret ≠ -1 →
          ∃ dir, mkdirPaths (main env).1 = [dir]
            ∧ fopenPaths (main env).1 = [dir ++ "/collector_output.log".toList])
      ∧ (ti.output_given = 0 →
          (format_stamp env.localtime).length < 64 →
          mkdirPaths (main env).1
            = ["/tmp/".toList ++ (ti.capture_arg.map (List.take 29)).getD "capture".toList
                ++ "_".toList ++ format_stamp env.localtime])
      ∧ (ti.output_given ≠ 0 →
          mkdirPaths (main env).1 = [ti.output_arg.take 255]) := by
  obtain ⟨hm, hf⟩ := paths_main env ti hc hnet
  refine ⟨?_, ?_, ?_, ?_, ?_⟩
  · intro hout hname hstamp
    have hn : capture_name_of ti = ti.capture_arg.getD "capture".toList := by
      unfold capture_name_of
      cases ha : ti.capture_arg with
      | none => rfl
      | some a =>
        rw [ha] at hname
        exact snprintf_fits 30 a (by simpa using Nat.lt_succ_of_le hname)
    have h5 : "/tmp/".toList.length = 5 := by decide
    have h1 : "_".toList.length = 1 := by decide
    rw [hm]
    unfold capture_dir_of strftime
    rw [if_pos hout, if_pos hstamp, hn, snprintf_fits]
    simp only [List.length_append, h5, h1]
    omega
  · intro hout hlen
    rw [hm]
    unfold capture_dir_of
    rw [if_neg hout, snprintf_fits _ _ (by omega)]
  · intro hmk
    exact ⟨_, hm, by rw [hf hmk, path_shell_capture_eq]⟩
  · intro hout hstamp
    have hn : capture_name_of ti
        = (ti.capture_arg.map (List.take 29)).getD "capture".toList := by
      unfold capture_name_of
      cases ti.capture_arg <;> rfl
    have hlen : ((ti.capture_arg.map (List.take 29)).getD "capture".toList).length ≤ 29 := by
      cases ti.capture_arg with
      | none => decide
      | some a =>
        show (a.take 29).length ≤ 29
        rw [List.length_take]
        omega
    have h5 : "/tmp/".toList.length = 5 := by decide
    have h1 : "_".toList.length = 1 := by decide
    rw [hm]
    unfold capture_dir_of strftime
    rw [if_pos hout, if_pos hstamp, hn, snprintf_fits]
    simp only [List.length_append, h5, h1]
    omega
  · intro hout
    rw [hm]
    unfold capture_dir_of
    rw [if_neg hout]
    rfl

/-- C8 witness: the sample session (no capture name, no output path, started on
2026-10-30 at 13:04:05) creates /tmp/capture_2026_10_30_13_04_05. -/
theorem C8_directory_naming_witness :
    mkdirPaths (main sampleEnv).1 = ["/tmp/capture_2026_10_30_13_04_05".toList] :=
  (C8_directory_naming sampleEnv ⟨0, none, 0, 0, []⟩ rfl (by decide)).1
    (by decide) (by decide) (by decide)

/-- C8 counterexample: a capture name of 30 bytes is cut to 29 in the directory name, and
an explicit output path of 256 bytes is cut to 255, so the directory created differs from the
name built from the full capture name or path. -/
theorem C8_counterexample :
    mkdirPaths (main longNameEnv).1
        ≠ ["/tmp/".toList ++ List.replicate 30 'a' ++ "_".toList
            ++ format_stamp longNameEnv.localtime]
      ∧ mkdirPaths (main longNameEnv).1
        = ["/tmp/".toList ++ List.replicate 29 'a' ++ "_".toList
            ++ format_stamp longNameEnv.localtime]
      ∧ mkdirPaths (main longPathEnv).1 ≠ ['/' :: List.replicate 255 'd']
      ∧ mkdirPaths (main longPathEnv).1 = ['/' :: List.replicate 254 'd'] := by
  rw [(paths_main longNameEnv ⟨0, some (List.replicate 30 'a'), 0, 0, []⟩ rfl (by decide)).1,
    (paths_main longPathEnv ⟨0, none, 0, 1, '/' :: List.replicate 255 'd'⟩ rfl (by decide)).1]
  decide

/-! ## Shell resolution -/

theorem target_uid_ok (os : ProcessView) (su : CString) (he : os.creds.euid = 0)
    (hu : os.secure_getenv "SUDO_UID" = some su) (hr : (strtoll su).2 = 0) :
    target_uid os = .ok (to_id (strtoll su).1) := by
  simp [target_uid, he, hu, hr]

theorem target_gid_ok (os : ProcessView) (sg : CString) (he : os.creds.egid = 0)
    (hg : os.secure_getenv "SUDO_GID" = some sg) (hr : (strtoll sg).2 = 0) :
    target_gid os = .ok (to_id (strtoll sg).1) := by
  simp [target_gid, he, hg, hr]

/-- C5 (amended): when the real uid, the effective uid and the effective gid are all 0,
the immediate parent's program name is "sudo", and SUDO_UID and SUDO_GID are present and
convert without a range error, `drop_root_privileges` issues the identity-changing calls
setgroups(0, NULL), setgid(SUDO_GID), setuid(SUDO_UID) in that order and in no other.  It
stops at the first call that fails and returns -1 without attempting the later ones; when
all three succeed it returns 1 with real and effective uid and gid at the target values
and no supplementary groups. -/
theorem C5_drop_order (os : ProcessView) (su sg : CString)
    (hroot : os.creds.ruid = 0) (heuid : os.creds.euid = 0) (hegid : os.creds.egid = 0)
    (hsudo : (read_comm (os.comm_file (read_ppid os os.pid)) os.name_uninit 64).2
              = "sudo".toList)
    (hu : os.secure_getenv "SUDO_UID" = some su)
    (hg : os.secure_getenv "SUDO_GID" = some sg)
    (hur : (strtoll su).2 = 0) (hgr : (strtoll sg).2 = 0) :
    (os.setgroups_refused = true →
        (drop_root_privileges os).ret = -1
          ∧ identityCalls (drop_root_privileges os).effects = [Effect.setgroups 0]
          ∧ (drop_root_privileges os).creds = os.creds)
      ∧ (os.setgroups_refused = false → os.setgid_refused = true →
          (drop_root_privileges os).ret = -1
            ∧ identityCalls (drop_root_privileges os).effects
                = [Effect.setgroups 0, Effect.setgid (to_id (strtoll sg).1)])
      ∧ (os.setgroups_refused = false → os.setgid_refused = false →
          os.setuid_refused = true →
          (drop_root_privileges os).ret = -1
            ∧ identityCalls (drop_root_privileges os).effects
                = [Effect.setgroups 0, Effect.setgid (to_id (strtoll sg).1),
                    Effect.setuid (to_id (strtoll su).1)])
      ∧ (os.setgroups_refused = false → os.setgid_refused = false →
          os.setuid_refused = false →
          (drop_root_privileges os).ret = 1
            ∧ identityCalls (drop_root_privileges os).effects
                = [Effect.setgroups 0, Effect.setgid (to_id (strtoll sg).1),
                    Effect.setuid (to_id (strtoll su).1)]
            ∧ (drop_root_privileges os).creds.ruid = to_id (strtoll su).1
            ∧ (drop_root_privileges os).creds.euid = to_id (strtoll su).1
            ∧ (drop_root_privileges os).creds.rgid = to_id (strtoll sg).1
            ∧ (drop_root_privileges os).creds.egid = to_id (strtoll sg).1
            ∧ (drop_root_privileges os).creds.groups = []) := by
  have tu := target_uid_ok os su heuid hu hur
  have tg := target_gid_ok os sg hegid hg hgr
  have hr : ¬ os.creds.ruid ≠ 0 := not_not.mpr hroot
  refine ⟨?_, ?_, ?_, ?_⟩
  · intro h1
    simp [drop_root_privileges, hr, hsudo, tu, tg, sys_setgroups0, h1, identityCalls]
  · intro h1 h2
    simp [drop_root_privileges, hr, hsudo, tu, tg, sys_setgroups0, sys_setgid, h1, h2, heuid,
      identityCalls]
  · intro h1 h2 h3
    simp [drop_root_privileges, hr, hsudo, tu, tg, sys_setgroups0, sys_setgid, sys_setuid, h1,
      h2, h3, heuid, identityCalls]
  · intro h1 h2 h3
    simp only [drop_root_privileges, hr, hsudo, tu, tg, sys_setgroups0, sys_setgid, sys_setuid,
      h1, h2, h3, heuid, if_false, if_true, false_or, not_true_eq_false, ne_eq,
      Bool.false_eq_true]
    refine ⟨trivial, ?_, trivial, trivial, trivial, trivial, trivial⟩
    split_ifs <;> simp [identityCalls]

/-- C5 witness: root under sudo with SUDO_UID = SUDO_GID = 1000 and no call refused ends
with uid and gid 1000 and no supplementary groups. -/
theorem C5_drop_order_witness :
    (drop_root_privileges (rootViaSudo 0 (some "1000".toList) (some "1000".toList))).ret = 1
      ∧ identityCalls
          (drop_root_privileges (rootViaSudo 0 (some "1000".toList) (some "1000".toList))).effects
          = [Effect.setgroups 0, Effect.setgid 1000, Effect.setuid 1000]
      ∧ (drop_root_privileges (rootViaSudo 0 (some "1000".toList) (some "1000".toList))).creds
          = ⟨1000, 1000, 1000, 1000, 1000, 1000, []⟩ :=
  have h := (C5_drop_order (rootViaSudo 0 (some "1000".toList) (some "1000".toList))
    "1000".toList "1000".toList rfl rfl rfl (by decide) rfl rfl (by decide) (by decide)).2.2.2
    rfl rfl rfl
  ⟨h.1, h.2.1, by decide⟩

/-- C5 counterexample: root under sudo with group id 50 and SUDO_UID = SUDO_GID = 1000.
The process is root under sudo with both markers present, yet the group is set with setgid(50), not
setgid(SUDO_GID), and the process is left with gid 50.  And with group id 0 and a SUDO_UID
too large for a long long, the function returns -1 without making any of the calls. -/
theorem C5_counterexample :
    (rootViaSudo 50 (some "1000".toList) (some "1000".toList)).creds.ruid = 0
      ∧ (rootViaSudo 50 (some "1000".toList) (some "1000".toList)).creds.euid = 0
      ∧ identityCalls
          (drop_root_privileges (rootViaSudo 50 (some "1000".toList) (some "1000".toList))).effects
          = [Effect.setgroups 0, Effect.setgid 50, Effect.setuid 1000]
      ∧ (drop_root_privileges (rootViaSudo 50 (some "1000".toList) (some "1000".toList))).ret = 1
      ∧ (drop_root_privileges (rootViaSudo 50 (some "1000".toList) (some "1000".toList))).creds.rgid
          = 50
      ∧ (drop_root_privileges (rootViaSudo 50 (some "1000".toList) (some "1000".toList))).creds.egid
          ≠ 1000
      ∧ (drop_root_privileges
          (rootViaSudo 0 (some "99999999999999999999".toList) (some "1000".toList))).ret = -1
      ∧ identityCalls (drop_root_privileges
          (rootViaSudo 0 (some "99999999999999999999".toList) (some "1000".toList))).effects
          = [] := by
  decide

/-- C6 (amended): a marker is consulted only when the matching effective id is 0.  When
the real uid is 0 and the immediate parent's program name is "sudo", then if the effective
uid is 0 and SUDO_UID is absent, or the effective gid is 0 and SUDO_GID is absent,
`drop_root_privileges` returns -1 having made no setgroups/setgid/setuid call and no
setenv call, and the credentials are unchanged. -/
theorem C6_missing_marker_fails (os : ProcessView)
    (hroot : os.creds.ruid = 0)
    (hsudo : (read_comm (os.comm_file (read_ppid os os.pid)) os.name_uninit 64).2
              = "sudo".toList)
    (hmiss : (os.creds.euid = 0 ∧ os.secure_getenv "SUDO_UID" = none)
              ∨ (os.creds.egid = 0 ∧ os.secure_getenv "SUDO_GID" = none)) :
    (drop_root_privileges os).ret = -1
      ∧ identityCalls (drop_root_privileges os).effects = []
      ∧ setenvCalls (drop_root_privileges os).effects = []
      ∧ (drop_root_privileges os).creds = os.creds := by
  have hr : ¬ os.creds.ruid ≠ 0 := not_not.mpr hroot
  have huE : ∀ d, target_uid os = .error d →
      identityCalls [d] = [] ∧ setenvCalls [d] = [] := by
    intro d hd
    unfold target_uid at hd
    split_ifs at hd
    · split at hd
      · cases hd; exact ⟨rfl, rfl⟩
      · split_ifs at hd
        cases hd; exact ⟨rfl, rfl⟩
  have hgE : ∀ d, target_gid os = .error d →
      identityCalls [d] = [] ∧ setenvCalls [d] = [] := by
    intro d hd
    unfold target_gid at hd
    split_ifs at hd
    · split at hd
      · cases hd; exact ⟨rfl, rfl⟩
      · split_ifs at hd
        cases hd; exact ⟨rfl, rfl⟩
  cases htu : target_uid os with
  | error d =>
    obtain ⟨a, b⟩ := huE d htu
    simp [drop_root_privileges, hr, hsudo, htu, a, b]
  | ok uid =>
    cases htg : target_gid os with
    | error d =>
      obtain ⟨a, b⟩ := hgE d htg
      simp [drop_root_privileges, hr, hsudo, htu, htg, a, b]
    | ok gid =>
      exfalso
      rcases hmiss with ⟨he, hn⟩ | ⟨he, hn⟩
      · simp [target_uid, he, hn] at htu
      · simp [target_gid, he, hn] at htg

/-- C6 witness: root under sudo with SUDO_UID absent. -/
theorem C6_missing_marker_fails_witness :
    (drop_root_privileges (rootViaSudo 0 none (some "1000".toList))).ret = -1
      ∧ identityCalls (drop_root_privileges (rootViaSudo 0 none (some "1000".toList))).effects
          = []
      ∧ setenvCalls (drop_root_privileges (rootViaSudo 0 none (some "1000".toList))).effects
          = []
      ∧ (drop_root_privileges (rootViaSudo 0 none (some "1000".toList))).creds
          = (rootViaSudo 0 none (some "1000".toList)).creds :=
  C6_missing_marker_fails (rootViaSudo 0 none (some "1000".toList)) rfl (by decide)
    (Or.inl ⟨rfl, rfl⟩)

/-- C6 counterexample: root under sudo with group id 50, SUDO_UID = 1000 and SUDO_GID
absent.  The missing marker is never looked up: the three identity calls are made, HOME is
set and the function returns 1. -/
theorem C6_counterexample :
    (rootViaSudo 50 (some "1000".toList) none).creds.ruid = 0
      ∧ (rootViaSudo 50 (some "1000".toList) none).creds.euid = 0
      ∧ (rootViaSudo 50 (some "1000".toList) none).secure_getenv "SUDO_GID" = none
      ∧ (drop_root_privileges (rootViaSudo 50 (some "1000".toList) none)).ret = 1
      ∧ (drop_root_privileges (rootViaSudo 50 (some "1000".toList) none)).effects
          = [Effect.setgroups 0, Effect.setgid 50, Effect.setuid 1000,
              Effect.setenv "HOME" "/home/nda" 1]
      ∧ (drop_root_privileges (rootViaSudo 50 (some "1000".toList) none)).creds.ruid
          = 1000 := by
  decide

/-! ## Keystroke forwarding and the ignored drop status -/

theorem for_events_forwards_stdin (m : Int) (hin : m ≠ STDIN_FILENO)
    (hout : m ≠ STDOUT_FILENO) (evs : List Ready) :
    writesTo m (for_events m evs).2 = readsFrom STDIN_FILENO (for_events m evs).2 := by
  induction evs with
  | nil => simp [for_events, writesTo, readsFrom]
  | cons r rest ih =>
    simp only [for_events]
    split_ifs with h1 h2 h3 h4 h5
    · simp [writesTo, readsFrom]
    · have hn : ¬ (0 < (sys_read r.pending BUF_SIZE).1) := not_lt.mpr h3
      simp [writesTo, readsFrom, hn]
    · have hn : 0 < (sys_read r.pending BUF_SIZE).1 := not_le.mp h3
      simp [writesTo, readsFrom, hn, ih, sys_read_take]
    · simp [writesTo, readsFrom, hin]
    · simp [writesTo, readsFrom, hin, Ne.symm hout, ih]
    · exact ih

theorem event_loop_forwards_stdin (m : Int) (hin : m ≠ STDIN_FILENO)
    (hout : m ≠ STDOUT_FILENO) (t : List WaitResult) :
    writesTo m (event_loop m t).2 = readsFrom STDIN_FILENO (event_loop m t).2 := by
  induction t with
  | nil => simp [event_loop, writesTo, readsFrom]
  | cons w ws ih =>
    have hf := for_events_forwards_stdin m hin hout (sys_epoll_wait w MAX_EVENTS).2
    simp only [event_loop]
    split_ifs <;> simp [writesTo, readsFrom, writesTo_append, readsFrom_append, ih, hf]

/-- The bytes written to the PTY master in a session that reaches the loop: the injected
line, then the chunks read from stdin. -/
theorem parent_session_master_writes (env : Env) (vf : Int)
    (hin : env.forkpty_master ≠ STDIN_FILENO) (hout : env.forkpty_master ≠ STDOUT_FILENO)
    (hep : env.epoll_create1_ret ≠ -1) :
    writesTo env.forkpty_master (parent_session env vf).1
      = ECHO_LINE ++ readsFrom STDIN_FILENO (parent_session env vf).1 := by
  have hl := event_loop_forwards_stdin env.forkpty_master hin hout env.waits
  have hw : ∀ fd, writesTo fd (update_winsize env.forkpty_master env.tty_winsize) = [] := by
    intro fd
    unfold update_winsize
    split_ifs
    · rfl
    · cases env.tty_winsize <;> rfl
  have hr : ∀ fd, readsFrom fd (update_winsize env.forkpty_master env.tty_winsize) = [] := by
    intro fd
    unfold update_winsize
    split_ifs
    · rfl
    · cases env.tty_winsize <;> rfl
  have hv : ∀ fd fmt, writesTo fd (verbose vf fmt []) = [] ∧ readsFrom fd (verbose vf fmt []) = [] := by
    intro fd fmt
    unfold verbose
    split_ifs <;> exact ⟨rfl, rfl⟩
  simp only [parent_session, after, if_neg hep]
  split_ifs <;>
    simp [writesTo_append, readsFrom_append, writesTo, readsFrom, hw, hr, hv, hl]

/-- C2 (code evaluated at the failing input): in the sample session the user types only
"ls\n", yet the bytes written to the PTY master are "echo qualcosa\n" followed by "ls\n":
the line written at collector.c:334 is added in front of the forwarded keystrokes. -/
theorem C2_injected_line_precedes_keystrokes :
    readsFrom STDIN_FILENO (main sampleEnv).1 = "ls\n".toList
      ∧ writesTo 3 (main sampleEnv).1 = "echo qualcosa\nls\n".toList
      ∧ writesTo 3 (main sampleEnv).1 ≠ readsFrom STDIN_FILENO (main sampleEnv).1 := by
  decide

/-- C4 (code evaluated at the failing input): for root under sudo with SUDO_UID missing,
`drop_root_privileges` returns -1, and `main` still creates the directory, opens the log,
allocates the PTY and ends with status 0 in the parent, while the child execs the shell
with the credentials of root. -/
theorem C4_failed_drop_does_not_abort :
    (drop_root_privileges failedDropEnv.proc).ret = -1
      ∧ (drop_root_privileges failedDropEnv.proc).creds.euid = 0
      ∧ laterSetupCalls (main failedDropEnv).1
          = [Effect.mkdir "/tmp/capture_2026_10_30_13_04_05".toList 0o755,
              Effect.fopen "/tmp/capture_2026_10_30_13_04_05/collector_output.log".toList "a",
              Effect.forkpty]
      ∧ (main failedDropEnv).2 = Outcome.exited 0
      ∧ laterSetupCalls (main failedDropChildEnv).1
          = [Effect.mkdir "/tmp/capture_2026_10_30_13_04_05".toList 0o755,
              Effect.fopen "/tmp/capture_2026_10_30_13_04_05/collector_output.log".toList "a",
              Effect.forkpty,
              Effect.execl "/usr/bin/zsh".toList "/usr/bin/zsh".toList "-i"]
      ∧ (main failedDropChildEnv).2 = Outcome.shell_image := by
  decide

/-- C9 witness: the sample trace is the plain trace with one interrupted wait inserted;
both leave the loop, with "hello" on stdout, and a wait failing with errno 5 right at the
start ends the sample session with status 0. -/
theorem C9_interrupted_waits_are_retried_witness :
    Interrupted plainTrace sampleTrace
      ∧ (event_loop 3 sampleTrace).1 = (event_loop 3 plainTrace).1
      ∧ writesTo STDOUT_FILENO (event_loop 3 sampleTrace).2
          = writesTo STDOUT_FILENO (event_loop 3 plainTrace).2
      ∧ (parent_session { sampleEnv with waits := [] ++ WaitResult.failed 5 :: [] } 0).2
          = Outcome.exited 0 :=
  have h : Interrupted plainTrace sampleTrace :=
    Interrupted.same _ (Interrupted.eintr (Interrupted.same _ (Interrupted.same _
      Interrupted.done)))
  have w := C9_interrupted_waits_are_retried 3 plainTrace sampleTrace h STDOUT_FILENO
    sampleEnv 0 [] [] [] 5
  ⟨h, w.1.1, w.1.2.1, (w.2.2.2 (by decide) (by decide) (by decide)).1⟩

end Collector
